import Mathlib

/-
Verification of the mri-processing repository (alexpron/mri-processing).

The repository is a set of diffusion-MRI processing pipeline declarations:
`src/dwi_nodes.py` wraps three Mrtrix3 command-line tools as python
functions and builds nipype Function nodes and a Workflow from them at
module level; `src/mrproc/pipelines/dwi_pipelines.py` defines builder
functions (`create_*`) that each assemble a nipype Workflow out of nodes
and `connect` calls.

This file shallowly embeds the two source modules: pure command-string
builders and run wrappers for the three functions in `dwi_nodes.py`, the
literal connection lists of each `create_*` builder, and the module-level
statement lists.  The generic workflow engine (node registration, port
validation on `connect`, nested-workflow flattening) is nipype and is not
under `src/`; where a claim is decided by that engine it is modelled from
the specification (see the doc comments starting `Modelled from the
spec:`) and evaluated on the source-derived pipeline data.
-/

namespace MriProc

/-! ## Embedding of `src/dwi_nodes.py` -/

/-- Environment oracle for `distutils.spawn.find_executable`: maps an
executable name to the resolved path on the search path, or `none` when
the executable cannot be located. -/
def Env : Type := String → Option String

/-- Oracle for the exit status of an external child process invoked with
a given command string (`subprocess.run`). -/
def ProcOracle : Type := String → Int

/-- Python values relevant to the embedded functions. -/
inductive PyVal where
  | pnone
  | pstr (s : String)
  | pbool (b : Bool)
deriving DecidableEq

/-- The argument handed to the process launcher `subprocess.run`: either a
single command string or an argument list. -/
inductive ProcArg where
  | strArg (s : String)
  | listArg (xs : List String)
deriving DecidableEq

/-- Outcome of a python `run` wrapper: an uncontrolled exception escaping
the call, a normal return value, or a typed failure in the sense of the
specification (tool-not-found, non-zero exit, missing output).  The
embedded wrappers from `dwi_nodes.py` never produce `fail`. -/
inductive RunOutcome where
  | crash (exn : String)
  | ret (v : PyVal)
  | fail (kind : String)
deriving DecidableEq

/-- A run together with the external-process invocations it performed. -/
structure RunTrace where
  invocations : List ProcArg
  outcome : RunOutcome
deriving DecidableEq

/-- `mrregister_rigid` from `src/dwi_nodes.py` (lines 12-26): resolves the
`mrregister` executable, concatenates the command string with `+`, calls
`subprocess.run(cmd)` without inspecting the exit status, and returns
`None`.  When `find_executable` returns `None`, the `+` concatenation of
`None` with a string raises `TypeError`. -/
def mrregister_rigid (env : Env) (proc : ProcOracle)
    (image template transform : String) : RunTrace :=
  match env "mrregister" with
  | none => { invocations := [], outcome := .crash "TypeError" }
  | some mrregister =>
      let cmd := mrregister ++ " -type rigid " ++ " -rigid " ++ transform
        ++ " " ++ image ++ " " ++ template
      let _exit := proc cmd
      { invocations := [.strArg cmd], outcome := .ret .pnone }

/-- `mrtransform_linear` from `src/dwi_nodes.py` (lines 29-43): resolves
`mrtransform`, builds the command string (the `-inverse` option is always
included, per the source comment about the reverse convention), runs it
ignoring the exit status, and returns `None`. -/
def mrtransform_linear (env : Env) (proc : ProcOracle)
    (input output transform : String) : RunTrace :=
  match env "mrtransform" with
  | none => { invocations := [], outcome := .crash "TypeError" }
  | some mrtransform =>
      let cmd := mrtransform ++ " -linear " ++ transform ++ " -inverse "
        ++ input ++ " " ++ output
      let _exit := proc cmd
      { invocations := [.strArg cmd], outcome := .ret .pnone }

/-- `tcksift` from `src/dwi_nodes.py` (lines 46-58): resolves `tcksift`,
builds the command string, runs it ignoring the exit status, and returns
`None`. -/
def tcksift (env : Env) (proc : ProcOracle)
    (input_tracks wm_fod filtered_tracks : String) : RunTrace :=
  match env "tcksift" with
  | none => { invocations := [], outcome := .crash "TypeError" }
  | some sift =>
      let cmd := sift ++ " " ++ input_tracks ++ " " ++ wm_fod ++ " "
        ++ filtered_tracks
      let _exit := proc cmd
      { invocations := [.strArg cmd], outcome := .ret .pnone }

/-- Declaration data of a nipype Function node: its name, the declared
input and output port names, and the parameter names of the wrapped
python function. -/
structure FunctionNodeDecl where
  name : String
  inputNames : List String
  outputNames : List String
  functionParams : List String
deriving DecidableEq

/-- `rigid_transform_estimation` node declaration, `src/dwi_nodes.py`
line 61. -/
def rigid_transform_estimation : FunctionNodeDecl :=
  { name := "rigid_transform_estimation"
  , inputNames := ["image", "template"]
  , outputNames := ["transform"]
  , functionParams := ["image", "template", "transform"] }

/-- `apply_linear_transform` node declaration, `src/dwi_nodes.py`
line 62. -/
def apply_linear_transform : FunctionNodeDecl :=
  { name := "apply_linear_transform"
  , inputNames := ["input", "transform"]
  , outputNames := ["output"]
  , functionParams := ["input", "output", "transform"] }

/-- `sift_filtering` node declaration, `src/dwi_nodes.py` line 65. -/
def sift_filtering : FunctionNodeDecl :=
  { name := "sift_filtering"
  , inputNames := ["input_tracks", "wm_fod"]
  , outputNames := ["filtered_tracks"]
  , functionParams := ["input_tracks", "wm_fod", "filtered_tracks"] }

/-- Output aggregation of the nipype Function interface for the nodes of
this repository (each declares a single output name): the function's
return value is bound to each declared output name. -/
def bindSingleOutput (outputNames : List String) (returned : PyVal) :
    List (String × PyVal) :=
  outputNames.map (fun n => (n, returned))

/-- A concrete environment in which all three Mrtrix3 executables
resolve. -/
def envStd : Env := fun n =>
  if n = "mrregister" then some "/usr/bin/mrregister"
  else if n = "mrtransform" then some "/usr/bin/mrtransform"
  else if n = "tcksift" then some "/usr/bin/tcksift"
  else none

/-- A concrete environment in which no executable resolves. -/
def envEmpty : Env := fun _ => none

/-- A process oracle whose child processes all exit with status 0. -/
def procZero : ProcOracle := fun _ => 0

/-- A process oracle whose child processes all exit with status 1. -/
def procOne : ProcOracle := fun _ => 1

/-! ## Workflow engine: connections and connect-time validation

The composition engine (node registration and `connect`-time port
validation) is provided by nipype and is not under `src/`; the
definitions of this section are modelled from the specification
(sections 4.2 and 8) and evaluated on the source-derived node and
connection data of `dwi_pipelines.py`. -/

/-- A recorded edge `(source node, source port) -> (dest node, dest
port)`. -/
structure Connection where
  srcNode : String
  srcPort : String
  dstNode : String
  dstPort : String
deriving DecidableEq

/-- Construction-time and flattening-time error kinds of the workflow
engine, from the specification's error-handling design. -/
inductive WfError where
  | duplicateNodeId (id : String)
  | unknownPort (node port : String)
  | portDirectionMismatch (node port : String)
  | destinationAlreadyBound (node port : String)
  | unboundExposedPort (wf port : String)
  | cyclicConnection
  | undefinedWorkflow (id : String)
deriving DecidableEq

/-- Declared ports of a registered node: its id and the names of its
input and output ports. -/
structure PortDecl where
  id : String
  inputs : List String
  outputs : List String
deriving DecidableEq

/-- A workflow being assembled: registered child nodes and recorded
connections. -/
structure WorkflowBuilder where
  name : String
  nodes : List PortDecl
  connections : List Connection
deriving DecidableEq

/-- Look up a registered node by id. -/
def findNode (w : WorkflowBuilder) (id : String) : Option PortDecl :=
  w.nodes.find? (fun n => n.id == id)

/-- Modelled from the spec: `add_node` registers a child node and fails
with `DuplicateNodeId` when the id collides (spec section 4.2).  The
engine itself is nipype code absent from `src/`. -/
def addNode (w : WorkflowBuilder) (n : PortDecl) :
    Except WfError WorkflowBuilder :=
  match findNode w n.id with
  | some _ => .error (.duplicateNodeId n.id)
  | none => .ok { w with nodes := w.nodes ++ [n] }

/-- Modelled from the spec: `connect(source_node, source_port, dest_node,
dest_port)` fails with `UnknownPort` if either port is undeclared (in
particular when the endpoint node is not registered, spec section 8),
`PortDirectionMismatch` if the source is not an output or the dest is not
an input, and `DestinationAlreadyBound` if the destination input already
has a connection (spec section 4.2).  The engine itself is nipype code
absent from `src/`. -/
def connect (w : WorkflowBuilder) (s sp d dp : String) :
    Except WfError WorkflowBuilder :=
  match findNode w s with
  | none => .error (.unknownPort s sp)
  | some sn =>
    match findNode w d with
    | none => .error (.unknownPort d dp)
    | some dn =>
      if sp ∈ sn.outputs then
        if dp ∈ dn.inputs then
          if w.connections.any (fun c => c.dstNode == d && c.dstPort == dp) then
            .error (.destinationAlreadyBound d dp)
          else
            .ok { w with connections := w.connections ++ [⟨s, sp, d, dp⟩] }
        else if dp ∈ dn.outputs then .error (.portDirectionMismatch d dp)
        else .error (.unknownPort d dp)
      else if sp ∈ sn.inputs then .error (.portDirectionMismatch s sp)
      else .error (.unknownPort s sp)

/-- Register a list of nodes, then perform a list of `connect` calls in
order, propagating the first error. -/
def buildWorkflow (name : String) (ns : List PortDecl)
    (calls : List (String × String × String × String)) :
    Except WfError WorkflowBuilder :=
  (ns.foldlM addNode { name := name, nodes := [], connections := [] }).bind
    (fun w0 => calls.foldlM
      (fun w c => connect w c.1 c.2.1 c.2.2.1 c.2.2.2) w0)

/-- The destination endpoints of a connection list. -/
def destPairs (cs : List Connection) : List (String × String) :=
  cs.map (fun c => (c.dstNode, c.dstPort))

/-! ## Connection lists of the `create_*` builders

Each list below transcribes, in source order, the `connect` calls of one
builder function of `src/mrproc/pipelines/dwi_pipelines.py` (a
multi-edge `connect([(a, b, [(p, q), ...])])` call contributes one entry
per pair).  Composite children are referenced by their workflow names
(`preprocessing`, `tensor`, `msmt_csd`, `tractogram_pipeline`,
`rigid_registration`) and cross-boundary ports by their dotted
`innernode.port` form, exactly as in the source. -/

/-- Connections of `create_preprocessing_pipeline` (lines 62-67). -/
def preprocessing_connections : List Connection :=
  [ ⟨"inputnode", "diffusion_volume", "diffusionbiascorrect", "in_file"⟩
  , ⟨"diffusionbiascorrect", "out_file", "diffusion2mask", "in_file"⟩
  , ⟨"diffusionbiascorrect", "out_file", "outputnode", "corrected_diffusion_volume"⟩
  , ⟨"diffusion2mask", "out_file", "outputnode", "mask"⟩ ]

/-- Connections of `create_tensor_pipeline` (lines 101-105). -/
def tensor_connections : List Connection :=
  [ ⟨"inputnode", "diffusion_volume", "diffusion2tensor", "in_file"⟩
  , ⟨"inputnode", "mask", "diffusion2tensor", "in_mask"⟩
  , ⟨"diffusion2tensor", "out_file", "tensor2fa", "in_file"⟩
  , ⟨"diffusion2tensor", "out_file", "outputnode", "tensor_coeff"⟩
  , ⟨"tensor2fa", "out_fa", "outputnode", "fa"⟩ ]

/-- Connections of `create_spherical_deconvolution_pipeline`
(lines 140-163).  Note the final call connects `diffusion2fod`'s
`wm_odf` output to port `wm_odf` of `outputnode`, whose declared fields
are `["wm_fod"]` (line 134). -/
def csd_connections : List Connection :=
  [ ⟨"inputnode", "diffusion_volume", "diffusion2response", "in_file"⟩
  , ⟨"inputnode", "mask", "diffusion2response", "in_mask"⟩
  , ⟨"inputnode", "5tt_file", "diffusion2response", "mtt_file"⟩
  , ⟨"diffusion2response", "wm_file", "diffusion2fod", "wm_txt"⟩
  , ⟨"diffusion2response", "gm_file", "diffusion2fod", "gm_txt"⟩
  , ⟨"diffusion2response", "csf_file", "diffusion2fod", "csf_txt"⟩
  , ⟨"inputnode", "diffusion_volume", "diffusion2fod", "in_file"⟩
  , ⟨"diffusion2fod", "wm_odf", "outputnode", "wm_odf"⟩ ]

/-- Connections of `create_tractogram_generation_pipeline`
(lines 194-211). -/
def tractogram_connections : List Connection :=
  [ ⟨"inputnode", "wm_fod", "tractography", "in_file"⟩
  , ⟨"inputnode", "mask", "tractography", "roi_mask"⟩
  , ⟨"inputnode", "act_file", "tractography", "act_file"⟩
  , ⟨"inputnode", "wm_fod", "sift_filtering", "wm_fod"⟩
  , ⟨"inputnode", "mask", "tractography", "seed_gmwmi"⟩
  , ⟨"tractography", "out_file", "sift_filtering", "input_tracks"⟩
  , ⟨"sift_filtering", "filtered_tracks", "outputnode", "tractogram"⟩ ]

/-- Connections of `create_core_pipeline` (lines 247-298). -/
def core_connections : List Connection :=
  [ ⟨"inputnode", "diffusion_volume", "preprocessing", "inputnode.diffusion_volume"⟩
  , ⟨"preprocessing", "outputnode.corrected_diffusion_volume", "tensor", "inputnode.diffusion_volume"⟩
  , ⟨"preprocessing", "outputnode.mask", "tensor", "inputnode.mask"⟩
  , ⟨"preprocessing", "outputnode.corrected_diffusion_volume", "msmt_csd", "inputnode.diffusion_volume"⟩
  , ⟨"tensor", "outputnode.fa", "rigid_registration", "rigid_transform_estimation.image"⟩
  , ⟨"inputnode", "t1_volume", "tissue_classif", "in_file"⟩
  , ⟨"tissue_classif", "out_file", "rigid_registration", "apply_linear_transform.in_file"⟩
  , ⟨"rigid_registration", "apply_linear_transform.out_file", "msmt_csd", "inputnode.5tt_file"⟩
  , ⟨"preprocessing", "outputnode.mask", "msmt_csd", "inputnode.mask"⟩
  , ⟨"msmt_csd", "outputnode.wm_fod", "tractogram_pipeline", "inputnode.wm_fod"⟩
  , ⟨"preprocessing", "outputnode.mask", "tractogram_pipeline", "inputnode.mask"⟩
  , ⟨"rigid_registration", "apply_linear_transform.out_file", "tractogram_pipeline", "inputnode.act_file"⟩
  , ⟨"tractogram_pipeline", "outputnode.tractogram", "outputnode", "tractogram"⟩
  , ⟨"msmt_csd", "outputnode.wm_fod", "outputnode", "wm_fod"⟩
  , ⟨"preprocessing", "outputnode.corrected_diffusion_volume", "outputnode", "corrected_diffusion_volume"⟩ ]

/-- Connections of `create_diffusion_pipeline` (lines 325-353). -/
def diffusion_connections : List Connection :=
  [ ⟨"inputnode", "diffusion_volume", "mrconvert", "in_file"⟩
  , ⟨"inputnode", "bvals", "mrconvert", "in_bval"⟩
  , ⟨"inputnode", "bvecs", "mrconvert", "in_bvec"⟩
  , ⟨"mrconvert", "out_file", "core_diffusion_pipeline", "inputnode.diffusion_volume"⟩
  , ⟨"inputnode", "t1_volume", "core_diffusion_pipeline", "inputnode.t1_volume"⟩
  , ⟨"core_diffusion_pipeline", "outputnode.corrected_diffusion_volume", "outputnode", "corrected_diffusion_volume"⟩
  , ⟨"core_diffusion_pipeline", "outputnode.wm_fod", "outputnode", "wm_fod"⟩
  , ⟨"core_diffusion_pipeline", "outputnode.tractogram", "outputnode", "tractogram"⟩ ]

/-- Connections of the module-level `rigid_registration` workflow of
`src/dwi_nodes.py` (line 64). -/
def rigid_registration_connections : List Connection :=
  [ ⟨"rigid_transform_estimation", "transform", "apply_linear_transform", "transform"⟩ ]

/-! ## The modelled `create_spherical_deconvolution_pipeline` build

Port declarations for the msmt_csd builder's nodes.  The
`IdentityInterface` facade fields are taken from the source (lines
127-136); the Mrtrix3 interface nodes (`ResponseSD`,
`ConstrainedSphericalDeconvolution`) are nipype interfaces absent from
`src/`, so their port lists are modelled from the ports the source and
the specification use on them. -/

/-- `inputnode` of msmt_csd: `IdentityInterface` with fields
`["diffusion_volume", "mask", "5tt_file"]` (source line 127); a facade
identity node declares each field as both input and output. -/
def csd_inputnode : PortDecl :=
  { id := "inputnode"
  , inputs := ["diffusion_volume", "mask", "5tt_file"]
  , outputs := ["diffusion_volume", "mask", "5tt_file"] }

/-- `outputnode` of msmt_csd: `IdentityInterface` with fields
`["wm_fod"]` (source line 133). -/
def csd_outputnode : PortDecl :=
  { id := "outputnode", inputs := ["wm_fod"], outputs := ["wm_fod"] }

/-- Modelled from the spec: port list of the `diffusion2response` node
(nipype `ResponseSD` interface, absent from `src/`), restricted to the
ports the source uses on it. -/
def diffusion2response : PortDecl :=
  { id := "diffusion2response"
  , inputs := ["in_file", "in_mask", "mtt_file", "algorithm"]
  , outputs := ["wm_file", "gm_file", "csf_file"] }

/-- Modelled from the spec: port list of the `diffusion2fod` node (nipype
`ConstrainedSphericalDeconvolution` interface, absent from `src/`),
restricted to the ports the source and the claims use on it; its
output port is `wm_odf`. -/
def diffusion2fod : PortDecl :=
  { id := "diffusion2fod"
  , inputs := ["wm_txt", "gm_txt", "csf_txt", "in_file"]
  , outputs := ["wm_odf"] }

/-- The `connect` calls of `create_spherical_deconvolution_pipeline` in
source order. -/
def csdConnectCalls : List (String × String × String × String) :=
  csd_connections.map (fun c => (c.srcNode, c.srcPort, c.dstNode, c.dstPort))

/-- The msmt_csd workflow assembly as performed by
`create_spherical_deconvolution_pipeline`, evaluated through the
validating engine. -/
def create_spherical_deconvolution_pipeline : Except WfError WorkflowBuilder :=
  buildWorkflow "msmt_csd"
    [csd_inputnode, diffusion2response, diffusion2fod, csd_outputnode]
    csdConnectCalls

/-! ## Module top-level statements

Python executes every top-level statement of a module when it is first
imported; the following lists transcribe the top-level statements of the
two source modules, tagging those that construct nipype Node or Workflow
objects as a side effect of the import. -/

/-- A top-level statement of a python module. -/
inductive TopLevelStmt where
  | importStmt (m : String)
  | defStmt (f : String)
  | constDef (n : String)
  | nodeConstruction (var : String)
  | workflowConstruction (var : String)
  | connectCall (wf : String)
deriving DecidableEq

/-- Top-level statements of `src/dwi_nodes.py`. -/
def dwi_nodes_module : List TopLevelStmt :=
  [ .importStmt "nipype.pipeline.engine"
  , .importStmt "nipype.interfaces.utility"
  , .defStmt "mrregister_rigid"
  , .defStmt "mrtransform_linear"
  , .defStmt "tcksift"
  , .nodeConstruction "rigid_transform_estimation"
  , .nodeConstruction "apply_linear_transform"
  , .workflowConstruction "rigid_registration"
  , .connectCall "rigid_registration"
  , .nodeConstruction "sift_filtering" ]

/-- Top-level statements of `src/mrproc/pipelines/dwi_pipelines.py`. -/
def dwi_pipelines_module : List TopLevelStmt :=
  [ .importStmt "nipype.pipeline.engine"
  , .importStmt "nipype.interfaces.utility"
  , .importStmt "nipype.interfaces.mrtrix3"
  , .importStmt "mrproc.nodes.mrtrix_nodes"
  , .importStmt "mrproc.nodes.mrtrix_nodes"
  , .importStmt "mrproc.nodes.custom_nodes"
  , .importStmt "mrproc.nodes.custom_nodes"
  , .constDef "N_TRACKS"
  , .constDef "MIN_LENGTH"
  , .constDef "MAX_LENGTH"
  , .defStmt "create_preprocessing_pipeline"
  , .defStmt "create_tensor_pipeline"
  , .defStmt "create_spherical_deconvolution_pipeline"
  , .defStmt "create_tractogram_generation_pipeline"
  , .defStmt "create_core_pipeline"
  , .defStmt "create_diffusion_pipeline" ]

/-- The Node or Workflow objects a module constructs as import side
effects, in order. -/
def constructedObjects (stmts : List TopLevelStmt) : List String :=
  stmts.foldr
    (fun s acc =>
      match s with
      | .nodeConstruction v => v :: acc
      | .workflowConstruction v => v :: acc
      | _ => acc) []

/-! ## Python attribute assignment on a constructed node

`create_preprocessing_pipeline` configures the bias-correction node with
a plain attribute assignment `diffusionbiascorrect.use_ants = True`
(line 43) rather than through the validated `node.inputs` traits (as
line 118 does with `diffusion2response.inputs.algorithm`).  CPython
object attribute assignment on a `pe.Node` accepts any attribute name
and stores it on the object, leaving the interface inputs untouched. -/

/-- A constructed `pe.Node` python object: its name, the assignments
made through the validated `node.inputs` traits, and the plain
attributes stored directly on the object. -/
structure PyNodeObj where
  name : String
  inputsAttrs : List (String × PyVal)
  plainAttrs : List (String × PyVal)
deriving DecidableEq

/-- CPython semantics of `setattr` on a `pe.Node` object (no slots, no
`__setattr__` validation): the assignment always succeeds and records a
plain attribute; the interface inputs are not modified. -/
def pyNodeSetattr (n : PyNodeObj) (a : String) (v : PyVal) :
    Except String PyNodeObj :=
  .ok { n with plainAttrs := n.plainAttrs ++ [(a, v)] }

/-- The `diffusionbiascorrect` node as constructed at line 40, before the
attribute assignment at line 43. -/
def diffusionbiascorrect : PyNodeObj :=
  { name := "diffusionbiascorrect", inputsAttrs := [], plainAttrs := [] }

/-! ## Flattening of nested workflows

Modelled from the spec (section 4.3): flattening expands nested
workflows into a flat DAG of atomic nodes by following facade
connections inward; a workflow that exposes an output port never
internally connected makes flattening fail with `UnboundExposedPort`,
while an exposed input port consumed nowhere is flattened away silently.
The flattening engine is nipype code absent from `src/`; the workflow
table below carries the source-derived node and connection data. -/

/-- A workflow definition for flattening: its name, atomic child nodes
(with ports), the names of child workflows (looked up in a table), its
connection list, and the facade fields of its `inputnode` and
`outputnode` identity nodes. -/
structure WfDef where
  id : String
  atoms : List PortDecl
  subs : List String
  conns : List Connection
  inputFields : List String
  outputFields : List String
deriving DecidableEq

/-- Look up a workflow definition by name. -/
def lookupWf (table : List WfDef) (id : String) : Option WfDef :=
  table.find? (fun w => w.id == id)

/-- Look up an atomic child node by name. -/
def findAtom (w : WfDef) (n : String) : Option PortDecl :=
  w.atoms.find? (fun a => a.id == n)

/-- The first exposed output field of `w` that no internal connection
feeds (no connection has destination `(outputnode, field)`), if any. -/
def firstUnboundOutput (w : WfDef) : Option String :=
  w.outputFields.find? (fun f =>
    !(w.conns.any (fun c => c.dstNode == "outputnode" && c.dstPort == f)))

/-- Check, depth-first, that every workflow reachable from the given
worklist exposes only internally connected output ports (spec 4.3
tie-break); `fuel` bounds the recursion depth. -/
def checkExposedFrom : Nat → List WfDef → List String → Except WfError Unit
  | 0, _, _ => .error .cyclicConnection
  | _ + 1, _, [] => .ok ()
  | fuel + 1, table, id :: rest =>
    match lookupWf table id with
    | none => .error (.undefinedWorkflow id)
    | some w =>
      match firstUnboundOutput w with
      | some f => .error (.unboundExposedPort w.id f)
      | none =>
        match checkExposedFrom fuel table w.subs with
        | .error e => .error e
        | .ok _ => checkExposedFrom fuel table rest

/-- Split a dotted port reference at its first dot:
`"outputnode.wm_fod"` becomes `("outputnode", "wm_fod")`. -/
def splitDotAux : List Char → Option (List Char × List Char)
  | [] => none
  | c :: cs =>
    if c = '.' then some ([], cs)
    else
      match splitDotAux cs with
      | none => none
      | some (a, b) => some (c :: a, b)

/-- Split a port reference of the form `inner.port` into its two parts,
or `none` when it contains no dot. -/
def splitDot (s : String) : Option (String × String) :=
  match splitDotAux s.data with
  | none => none
  | some (a, b) => some (⟨a⟩, ⟨b⟩)

/-- A resolved connection endpoint: an atomic node (with its flat,
path-qualified id) or the enclosing workflow's own facade (the value
enters or leaves from outside). -/
inductive Endpoint where
  | atomEp (node port : String)
  | externalEp (port : String)
deriving DecidableEq

/-- Resolve a source endpoint `(n, p)` inside workflow `w` (whose inner
nodes are qualified by `qual`) to an atomic endpoint, following output
facades of nested workflows inward (spec 4.3): a reference
`sub.outputnode.f` is resolved by finding the connection inside `sub`
whose destination is `(outputnode, f)` and recursively resolving that
connection's source; a dotted reference to a non-facade inner node
resolves inside the named child workflow directly. -/
def resolveSrc : Nat → List WfDef → String → WfDef → String → String →
    Except WfError Endpoint
  | 0, _, _, _, _, _ => .error .cyclicConnection
  | fuel + 1, table, qual, w, n, p =>
    if n == "inputnode" then .ok (.externalEp p)
    else
      match findAtom w n with
      | some _ => .ok (.atomEp (qual ++ n) p)
      | none =>
        if n ∈ w.subs then
          match lookupWf table n with
          | none => .error (.undefinedWorkflow n)
          | some sub =>
            match splitDot p with
            | some (inner, q) =>
              if inner == "outputnode" then
                match sub.conns.find?
                    (fun c => c.dstNode == "outputnode" && c.dstPort == q) with
                | none => .error (.unboundExposedPort sub.id q)
                | some c =>
                  resolveSrc fuel table (qual ++ n ++ ".") sub c.srcNode c.srcPort
              else resolveSrc fuel table (qual ++ n ++ ".") sub inner q
            | none => .error (.unknownPort n p)
        else .error (.unknownPort n p)

/-- Resolve a worklist of destination endpoints to atomic endpoints,
following input facades of nested workflows inward; one facade input may
feed several internal consumers (fan-out), and a facade input consumed
nowhere internally is flattened away silently (spec 4.3). -/
def resolveDsts : Nat → List WfDef → List (String × WfDef × String × String) →
    Except WfError (List Endpoint)
  | 0, _, _ => .error .cyclicConnection
  | _ + 1, _, [] => .ok []
  | fuel + 1, table, (qual, w, n, p) :: rest =>
    if n == "outputnode" then
      match resolveDsts fuel table rest with
      | .error e => .error e
      | .ok es => .ok (.externalEp p :: es)
    else
      match findAtom w n with
      | some _ =>
        match resolveDsts fuel table rest with
        | .error e => .error e
        | .ok es => .ok (.atomEp (qual ++ n) p :: es)
      | none =>
        if n ∈ w.subs then
          match lookupWf table n with
          | none => .error (.undefinedWorkflow n)
          | some sub =>
            match splitDot p with
            | some (inner, q) =>
              if inner == "inputnode" then
                resolveDsts fuel table
                  (((sub.conns.filter
                      (fun c => c.srcNode == "inputnode" && c.srcPort == q)).map
                      (fun c => (qual ++ n ++ ".", sub, c.dstNode, c.dstPort)))
                    ++ rest)
              else resolveDsts fuel table ((qual ++ n ++ ".", sub, inner, q) :: rest)
            | none => .error (.unknownPort n p)
        else .error (.unknownPort n p)

/-- The atomic-to-atomic edges induced by one resolved source and a list
of resolved destinations. -/
def crossEdges (se : Endpoint) (des : List Endpoint) : List Connection :=
  match se with
  | .externalEp _ => []
  | .atomEp sn sp =>
    des.foldr
      (fun d acc =>
        match d with
        | .atomEp dn dp => ⟨sn, sp, dn, dp⟩ :: acc
        | .externalEp _ => acc) []

/-- Resolve the connections of one workflow into flat atomic-to-atomic
edges; connections out of the workflow's own `inputnode` or into its own
`outputnode` are facade wiring followed from the consuming side. -/
def flattenConns (fuel : Nat) (table : List WfDef) (qual : String)
    (w : WfDef) : List Connection → Except WfError (List Connection)
  | [] => .ok []
  | c :: cs =>
    if c.srcNode == "inputnode" || c.dstNode == "outputnode" then
      flattenConns fuel table qual w cs
    else
      match resolveSrc fuel table qual w c.srcNode c.srcPort with
      | .error e => .error e
      | .ok se =>
        match resolveDsts fuel table [(qual, w, c.dstNode, c.dstPort)] with
        | .error e => .error e
        | .ok des =>
          match flattenConns fuel table qual w cs with
          | .error e => .error e
          | .ok es => .ok (crossEdges se des ++ es)

/-- Resolve, depth-first, the connections of every workflow in the
worklist (and of their nested workflows) into flat edges. -/
def flattenAll : Nat → List WfDef → List (String × String) →
    Except WfError (List Connection)
  | 0, _, _ => .error .cyclicConnection
  | _ + 1, _, [] => .ok []
  | fuel + 1, table, (qual, id) :: rest =>
    match lookupWf table id with
    | none => .error (.undefinedWorkflow id)
    | some w =>
      match flattenConns (fuel + 1) table qual w w.conns with
      | .error e => .error e
      | .ok e1 =>
        match flattenAll fuel table
            ((w.subs.map (fun s => (qual ++ s ++ ".", s))) ++ rest) with
        | .error e => .error e
        | .ok e2 => .ok (e1 ++ e2)

/-- Flatten the workflow named `root`: first check that every reachable
workflow's exposed output ports are internally connected (failing with
`UnboundExposedPort` otherwise, spec 4.3), then resolve all connections
into a flat list of atomic-to-atomic edges. -/
def flatten (fuel : Nat) (table : List WfDef) (root : String) :
    Except WfError (List Connection) :=
  match checkExposedFrom fuel table [root] with
  | .error e => .error e
  | .ok _ => flattenAll fuel table [("", root)]

/-! ## The pipeline table

One `WfDef` per workflow built in the sources.  `IdentityInterface`
facade fields are transcribed from the source; port lists of nipype
interface nodes (`DWIBiasCorrect`, `BrainMask`, `FitTensor`,
`TensorMetrics`, `MRConvert`) and of the nodes produced by the factory
functions imported from `mrproc.nodes.mrtrix_nodes` and
`mrproc.nodes.custom_nodes` (modules absent from `src/`) are modelled
from the ports the source uses on them. -/

/-- The `preprocessing` workflow of `create_preprocessing_pipeline`
(lines 33-69). -/
def preprocessingWf : WfDef :=
  { id := "preprocessing"
  , atoms :=
      [ ⟨"inputnode", ["diffusion_volume"], ["diffusion_volume"]⟩
      , ⟨"outputnode", ["corrected_diffusion_volume", "mask"],
          ["corrected_diffusion_volume", "mask"]⟩
      , ⟨"diffusionbiascorrect", ["in_file"], ["out_file"]⟩
      , ⟨"diffusion2mask", ["in_file"], ["out_file"]⟩ ]
  , subs := []
  , conns := preprocessing_connections
  , inputFields := ["diffusion_volume"]
  , outputFields := ["corrected_diffusion_volume", "mask"] }

/-- The `tensor` workflow of `create_tensor_pipeline` (lines 72-107). -/
def tensorWf : WfDef :=
  { id := "tensor"
  , atoms :=
      [ ⟨"inputnode", ["diffusion_volume", "mask"], ["diffusion_volume", "mask"]⟩
      , ⟨"outputnode", ["tensor_coeff", "fa"], ["tensor_coeff", "fa"]⟩
      , ⟨"diffusion2tensor", ["in_file", "in_mask"], ["out_file"]⟩
      , ⟨"tensor2fa", ["in_file"], ["out_fa"]⟩ ]
  , subs := []
  , conns := tensor_connections
  , inputFields := ["diffusion_volume", "mask"]
  , outputFields := ["tensor_coeff", "fa"] }

/-- The `msmt_csd` workflow of
`create_spherical_deconvolution_pipeline` (lines 110-165). -/
def csdWf : WfDef :=
  { id := "msmt_csd"
  , atoms := [csd_inputnode, csd_outputnode, diffusion2response, diffusion2fod]
  , subs := []
  , conns := csd_connections
  , inputFields := ["diffusion_volume", "mask", "5tt_file"]
  , outputFields := ["wm_fod"] }

/-- The `tractogram_pipeline` workflow of
`create_tractogram_generation_pipeline` (lines 170-212); the
`tractography` and `sift_filtering` nodes come from factory functions
absent from `src/`, their ports modelled from the source's usage. -/
def tractogramWf : WfDef :=
  { id := "tractogram_pipeline"
  , atoms :=
      [ ⟨"inputnode", ["wm_fod", "mask", "act_file"], ["wm_fod", "mask", "act_file"]⟩
      , ⟨"outputnode", ["tractogram"], ["tractogram"]⟩
      , ⟨"tractography", ["in_file", "roi_mask", "act_file", "seed_gmwmi"], ["out_file"]⟩
      , ⟨"sift_filtering", ["wm_fod", "input_tracks"], ["filtered_tracks"]⟩ ]
  , subs := []
  , conns := tractogram_connections
  , inputFields := ["wm_fod", "mask", "act_file"]
  , outputFields := ["tractogram"] }

/-- Modelled from the spec: the `rigid_registration` workflow returned by
`create_rigid_registration_pipeline` of `mrproc.nodes.custom_nodes`
(module absent from `src/`), modelled after the module-level
`rigid_registration` workflow of `src/dwi_nodes.py` and the ports
`create_core_pipeline` uses on it (`rigid_transform_estimation.image`,
`apply_linear_transform.in_file`, `apply_linear_transform.out_file`);
it is consumed through direct inner-node references, not facades. -/
def rigidRegistrationWf : WfDef :=
  { id := "rigid_registration"
  , atoms :=
      [ ⟨"rigid_transform_estimation", ["image", "template"], ["transform"]⟩
      , ⟨"apply_linear_transform", ["in_file", "transform"], ["out_file"]⟩ ]
  , subs := []
  , conns := rigid_registration_connections
  , inputFields := []
  , outputFields := [] }

/-- The `core_diffusion_pipeline` workflow of `create_core_pipeline`
(lines 218-300); `tissue_classif` comes from a factory absent from
`src/`, its ports modelled from the source's usage. -/
def coreWf : WfDef :=
  { id := "core_diffusion_pipeline"
  , atoms :=
      [ ⟨"inputnode", ["diffusion_volume", "t1_volume"], ["diffusion_volume", "t1_volume"]⟩
      , ⟨"outputnode", ["corrected_diffusion_volume", "wm_fod", "tractogram"],
          ["corrected_diffusion_volume", "wm_fod", "tractogram"]⟩
      , ⟨"tissue_classif", ["in_file"], ["out_file"]⟩ ]
  , subs := ["preprocessing", "tensor", "rigid_registration", "msmt_csd",
      "tractogram_pipeline"]
  , conns := core_connections
  , inputFields := ["diffusion_volume", "t1_volume"]
  , outputFields := ["corrected_diffusion_volume", "wm_fod", "tractogram"] }

/-- The `diffusion_pipeline` workflow of `create_diffusion_pipeline`
(lines 303-355). -/
def diffusionWf : WfDef :=
  { id := "diffusion_pipeline"
  , atoms :=
      [ ⟨"inputnode", ["diffusion_volume", "bvals", "bvecs", "t1_volume"],
          ["diffusion_volume", "bvals", "bvecs", "t1_volume"]⟩
      , ⟨"outputnode", ["corrected_diffusion_volume", "wm_fod", "tractogram"],
          ["corrected_diffusion_volume", "wm_fod", "tractogram"]⟩
      , ⟨"mrconvert", ["in_file", "in_bval", "in_bvec"], ["out_file"]⟩ ]
  , subs := ["core_diffusion_pipeline"]
  , conns := diffusion_connections
  , inputFields := ["diffusion_volume", "bvals", "bvecs", "t1_volume"]
  , outputFields := ["corrected_diffusion_volume", "wm_fod", "tractogram"] }

/-- The table of all workflows the sources build. -/
def pipelineTable : List WfDef :=
  [preprocessingWf, tensorWf, csdWf, tractogramWf, rigidRegistrationWf,
    coreWf, diffusionWf]

/-- The csd connection list with the destination port of its last
connection replaced by the declared facade field `wm_fod`; used to show
that the flattening failure is caused precisely by the undeclared
`wm_odf` destination. -/
def csd_connections_fixed : List Connection :=
  (csd_connections.take 7) ++ [⟨"diffusion2fod", "wm_odf", "outputnode", "wm_fod"⟩]

/-- The pipeline table with the csd connection repaired. -/
def pipelineTableFixed : List WfDef :=
  [preprocessingWf, tensorWf, { csdWf with conns := csd_connections_fixed },
    tractogramWf, rigidRegistrationWf, coreWf, diffusionWf]

/-- Boolean success test for a flattening result. -/
def flattenOk (r : Except WfError (List Connection)) : Bool :=
  match r with
  | .ok _ => true
  | .error _ => false

theorem sanity_flatten_preprocessing :
    flatten 100 pipelineTable "preprocessing"
      = .ok [⟨"diffusionbiascorrect", "out_file", "diffusion2mask", "in_file"⟩] := by
  rfl

theorem sanity_flatten_core :
    flatten 100 pipelineTable "core_diffusion_pipeline"
      = .error (.unboundExposedPort "msmt_csd" "wm_fod") := by
  rfl

theorem sanity_flatten_core_fixed :
    flattenOk (flatten 100 pipelineTableFixed "core_diffusion_pipeline") = true := by
  rfl

/-- A one-workflow table entry exposing an output field no connection
feeds; used to witness the flattening failure theorem. -/
def tinyUnboundWf : WfDef :=
  { id := "w0", atoms := [], subs := [], conns := [], inputFields := []
  , outputFields := ["out0"] }

/-- An assembly state with one source node and one destination node and
no connections yet; used to witness the engine theorems. -/
def tinyBuilder : WorkflowBuilder :=
  { name := "tiny"
  , nodes := [⟨"a", [], ["x"]⟩, ⟨"b", ["y"], []⟩]
  , connections := [] }

/-- An assembly state with no registered nodes. -/
def emptyBuilder : WorkflowBuilder :=
  { name := "empty", nodes := [], connections := [] }

/-! ## Claim theorems -/

/-- Claim C1, as stated, is false at a concrete input: when `mrregister`
is not on the search path, `mrregister_rigid` terminates with an
uncontrolled `TypeError` crash (`None` concatenated with a string), not
a typed tool-not-found failure; and when the child process exits with
status 1, the run returns `None` exactly as on success instead of
failing. -/
theorem C1_counterexample :
    (mrregister_rigid envEmpty procZero "dwi.mif" "template.mif" "t.txt").outcome
        = .crash "TypeError"
    ∧ (mrregister_rigid envStd procOne "dwi.mif" "template.mif" "t.txt").outcome
        = .ret .pnone
    ∧ (mrregister_rigid envStd procOne "dwi.mif" "template.mif" "t.txt").outcome
        = (mrregister_rigid envStd procZero "dwi.mif" "template.mif" "t.txt").outcome :=
  ⟨rfl, rfl, rfl⟩

/-- Claim C1 amended: for every atomic Node `run` wrapper of
`dwi_nodes.py`, when the external executable cannot be located on the
search path the run terminates with an uncontrolled `TypeError` crash
rather than a typed tool-not-found failure, and the run's outcome is
independent of the child process's exit status (a non-zero exit is
indistinguishable from success and never produces a failure). -/
theorem C1_run_error_behavior :
    (∀ (env : Env) (proc : ProcOracle) (i t x : String),
        env "mrregister" = none →
        (mrregister_rigid env proc i t x).outcome = .crash "TypeError")
    ∧ (∀ (env : Env) (p1 p2 : ProcOracle) (i t x : String),
        (mrregister_rigid env p1 i t x).outcome
          = (mrregister_rigid env p2 i t x).outcome)
    ∧ (∀ (env : Env) (proc : ProcOracle) (i t x k : String),
        (mrregister_rigid env proc i t x).outcome ≠ .fail k)
    ∧ (∀ (env : Env) (proc : ProcOracle) (a b c : String),
        env "mrtransform" = none →
        (mrtransform_linear env proc a b c).outcome = .crash "TypeError")
    ∧ (∀ (env : Env) (p1 p2 : ProcOracle) (a b c : String),
        (mrtransform_linear env p1 a b c).outcome
          = (mrtransform_linear env p2 a b c).outcome)
    ∧ (∀ (env : Env) (proc : ProcOracle) (a b c k : String),
        (mrtransform_linear env proc a b c).outcome ≠ .fail k)
    ∧ (∀ (env : Env) (proc : ProcOracle) (a b c : String),
        env "tcksift" = none →
        (tcksift env proc a b c).outcome = .crash "TypeError")
    ∧ (∀ (env : Env) (p1 p2 : ProcOracle) (a b c : String),
        (tcksift env p1 a b c).outcome = (tcksift env p2 a b c).outcome)
    ∧ (∀ (env : Env) (proc : ProcOracle) (a b c k : String),
        (tcksift env proc a b c).outcome ≠ .fail k) := by
  refine ⟨?_, ?_, ?_, ?_, ?_, ?_, ?_, ?_, ?_⟩
  · intro env proc i t x h
    simp only [mrregister_rigid, h]
  · intro env p1 p2 i t x
    simp only [mrregister_rigid]
  · intro env proc i t x k h
    simp only [mrregister_rigid] at h
    cases henv : env "mrregister" <;> rw [henv] at h <;> exact RunOutcome.noConfusion h
  · intro env proc a b c h
    simp only [mrtransform_linear, h]
  · intro env p1 p2 a b c
    simp only [mrtransform_linear]
  · intro env proc a b c k h
    simp only [mrtransform_linear] at h
    cases henv : env "mrtransform" <;> rw [henv] at h <;> exact RunOutcome.noConfusion h
  · intro env proc a b c h
    simp only [tcksift, h]
  · intro env p1 p2 a b c
    simp only [tcksift]
  · intro env proc a b c k h
    simp only [tcksift] at h
    cases henv : env "tcksift" <;> rw [henv] at h <;> exact RunOutcome.noConfusion h

/-- Witness for C1: the tool-not-found branch at a concrete
environment. -/
theorem C1_run_error_behavior_witness :
    (mrregister_rigid envEmpty procZero "i" "t" "x").outcome = .crash "TypeError" :=
  C1_run_error_behavior.1 envEmpty procZero "i" "t" "x" rfl

/-- Claim C2: the msmt_csd builder's final `connect` call names the
undeclared destination port `wm_odf` on the output facade whose declared
fields are `["wm_fod"]`, so the validating engine rejects the build with
`UnknownPort`; the very port the rest of the code reads
(`outputnode.wm_fod`, used by `create_core_pipeline`) is the declared
one, showing the `wm_odf` destination is a slip. -/
theorem C2_csd_connect_undeclared_port :
    create_spherical_deconvolution_pipeline
        = .error (.unknownPort "outputnode" "wm_odf")
    ∧ "wm_odf" ∉ csd_outputnode.inputs
    ∧ ⟨"diffusion2fod", "wm_odf", "outputnode", "wm_odf"⟩ ∈ csd_connections
    ∧ ⟨"msmt_csd", "outputnode.wm_fod", "tractogram_pipeline", "inputnode.wm_fod"⟩
        ∈ core_connections :=
  ⟨rfl, by decide, by decide, by decide⟩

/-- Claim C3: a workflow that exposes an output port never internally
connected makes flattening fail with `UnboundExposedPort` (never
silently yielding a flat DAG); in particular flattening the
`core_diffusion_pipeline`, which consumes the msmt_csd workflow's
exposed `wm_fod` output, fails because that facade port is not
internally connected. -/
theorem C3_flatten_unbound_exposed :
    (∀ (fuel : Nat) (table : List WfDef) (root : String) (w : WfDef) (f : String),
        lookupWf table root = some w →
        f ∈ w.outputFields →
        (∀ c ∈ w.conns, ¬(c.dstNode = "outputnode" ∧ c.dstPort = f)) →
        ∃ g, flatten (fuel + 1) table root = .error (.unboundExposedPort w.id g))
    ∧ flatten 100 pipelineTable "core_diffusion_pipeline"
        = .error (.unboundExposedPort "msmt_csd" "wm_fod")
    ∧ flattenOk (flatten 100 pipelineTableFixed "core_diffusion_pipeline") = true := by
  refine ⟨?_, rfl, rfl⟩
  intro fuel table root w f hw hf hnc
  have hp : (w.conns.any (fun c => c.dstNode == "outputnode" && c.dstPort == f))
      = false := by
    rw [List.any_eq_false]
    intro c hc
    simp only [Bool.and_eq_true, beq_iff_eq, not_and]
    intro h1 h2
    exact hnc c hc ⟨h1, h2⟩
  have hs : (firstUnboundOutput w).isSome := by
    rw [firstUnboundOutput, List.find?_isSome]
    exact ⟨f, hf, by simp [hp]⟩
  obtain ⟨g, hg⟩ := Option.isSome_iff_exists.mp hs
  exact ⟨g, by simp only [flatten, checkExposedFrom, hw, hg]⟩

/-- Witness for C3: a one-workflow table whose root exposes an unbound
output port. -/
theorem C3_flatten_unbound_exposed_witness :
    ∃ g, flatten 1 [tinyUnboundWf] "w0" = .error (.unboundExposedPort "w0" g) :=
  C3_flatten_unbound_exposed.1 0 [tinyUnboundWf] "w0" tinyUnboundWf "out0"
    rfl (by decide) (by decide)

/-- Claim C4, as stated, is false at a concrete input: a
`rigid_transform_estimation` run that completes returns `None`, binding
its declared output `transform` to `None`, and does not fail with
`MissingOutput`. -/
theorem C4_counterexample :
    (mrregister_rigid envStd procZero "dwi.mif" "template.mif" "t.txt").outcome
        = .ret .pnone
    ∧ bindSingleOutput rigid_transform_estimation.outputNames .pnone
        = [("transform", .pnone)]
    ∧ (mrregister_rigid envStd procZero "dwi.mif" "template.mif" "t.txt").outcome
        ≠ .fail "MissingOutput" :=
  ⟨rfl, rfl, by decide⟩

/-- Claim C4 amended: every completed `mrregister_rigid` run (the run
implementation of the `rigid_transform_estimation` node) returns `None`,
so the node's declared output `transform` is bound to `None` and the
absence of a produced Value is silently accepted as a no-op — no code
path yields a `MissingOutput` (or any other typed) failure. -/
theorem C4_no_missing_output_check :
    ∀ (env : Env) (proc : ProcOracle) (path i t x : String),
      env "mrregister" = some path →
      (mrregister_rigid env proc i t x).outcome = .ret .pnone
      ∧ bindSingleOutput rigid_transform_estimation.outputNames .pnone
          = [("transform", .pnone)]
      ∧ ∀ k, (mrregister_rigid env proc i t x).outcome ≠ .fail k := by
  intro env proc path i t x h
  refine ⟨by simp only [mrregister_rigid, h], rfl, ?_⟩
  intro k hk
  simp only [mrregister_rigid, h] at hk
  exact RunOutcome.noConfusion hk

/-- Witness for C4: a concrete completed run binding `transform` to
`None`. -/
theorem C4_no_missing_output_check_witness :
    (mrregister_rigid envStd procZero "i" "t" "x").outcome = .ret .pnone :=
  (C4_no_missing_output_check envStd procZero "/usr/bin/mrregister" "i" "t" "x" rfl).1

/-- Claim C5: a successful `connect` requires the destination input to be
previously unbound and records exactly one new connection for it, so
each `(dest node, dest port)` pair appears in at most one connection of
an assembled workflow; the literal connection lists of all seven
workflows built in the sources have pairwise distinct destination pairs,
while `create_core_pipeline` fans the preprocessing `mask` output out to
three distinct consumers. -/
theorem C5_unique_destinations :
    (∀ (w : WorkflowBuilder) (s sp d dp : String) (w2 : WorkflowBuilder),
        connect w s sp d dp = .ok w2 →
        (d, dp) ∉ destPairs w.connections
        ∧ destPairs w2.connections = destPairs w.connections ++ [(d, dp)])
    ∧ (destPairs preprocessing_connections).Nodup
    ∧ (destPairs tensor_connections).Nodup
    ∧ (destPairs csd_connections).Nodup
    ∧ (destPairs tractogram_connections).Nodup
    ∧ (destPairs core_connections).Nodup
    ∧ (destPairs diffusion_connections).Nodup
    ∧ (destPairs rigid_registration_connections).Nodup
    ∧ destPairs (core_connections.filter
          (fun c => c.srcNode == "preprocessing" && c.srcPort == "outputnode.mask"))
        = [("tensor", "inputnode.mask"), ("msmt_csd", "inputnode.mask"),
            ("tractogram_pipeline", "inputnode.mask")] := by
  refine ⟨?_, by decide, by decide, by decide, by decide, by decide, by decide,
    by decide, by decide⟩
  intro w s sp d dp w2 h
  simp only [connect] at h
  split at h
  · exact absurd h (by simp)
  split at h
  · exact absurd h (by simp)
  split at h
  case _ =>
    split at h
    case _ =>
      split at h
      case _ hany => exact absurd h (by simp)
      case _ hany =>
        have hw2 : { w with connections := w.connections ++ [⟨s, sp, d, dp⟩] } = w2 := by
          cases h
          rfl
        constructor
        · intro hmem
          apply hany
          simp only [destPairs, List.mem_map] at hmem
          obtain ⟨c, hc, hcd⟩ := hmem
          rw [List.any_eq_true]
          refine ⟨c, hc, ?_⟩
          simp only [Bool.and_eq_true, beq_iff_eq]
          exact ⟨congrArg Prod.fst hcd, congrArg Prod.snd hcd⟩
        · rw [← hw2]
          simp [destPairs]
    case _ =>
      split at h
      · exact absurd h (by simp)
      · exact absurd h (by simp)
  case _ =>
    split at h
    · exact absurd h (by simp)
    · exact absurd h (by simp)

/-- Witness for C5: a successful connect on a two-node builder. -/
theorem C5_unique_destinations_witness :
    ("b", "y") ∉ destPairs tinyBuilder.connections :=
  (C5_unique_destinations.1 tinyBuilder "a" "x" "b" "y"
    { tinyBuilder with connections := [⟨"a", "x", "b", "y"⟩] } rfl).1

/-- Claim C6, as stated, is false at a concrete input: the command of
`mrregister_rigid` is handed to the process launcher as one concatenated
string (note the doubled space produced by the source's adjacent string
fragments), not as an argument list with distinct elements. -/
theorem C6_counterexample :
    (mrregister_rigid envStd procZero "dwi.mif" "template.mif" "t.txt").invocations
      = [.strArg "/usr/bin/mrregister -type rigid  -rigid t.txt dwi.mif template.mif"] := by
  decide

/-- Claim C6 amended: every external-process invocation performed by the
`run` wrappers of `dwi_nodes.py` is constructed by concatenating the
executable path, flags and values into a single space-joined command
string, and that single string — never an argument list — is handed to
the process launcher. -/
theorem C6_single_string_invocations :
    ∀ (env : Env) (proc : ProcOracle) (a b c : String),
      (∀ x ∈ (mrregister_rigid env proc a b c).invocations, ∃ s, x = .strArg s)
      ∧ (∀ x ∈ (mrtransform_linear env proc a b c).invocations, ∃ s, x = .strArg s)
      ∧ (∀ x ∈ (tcksift env proc a b c).invocations, ∃ s, x = .strArg s) := by
  intro env proc a b c
  refine ⟨?_, ?_, ?_⟩
  · simp only [mrregister_rigid]
    cases env "mrregister" <;> simp
  · simp only [mrtransform_linear]
    cases env "mrtransform" <;> simp
  · simp only [tcksift]
    cases env "tcksift" <;> simp

/-- Witness for C6: the concrete mrregister invocation is a single
string. -/
theorem C6_single_string_invocations_witness :
    ∃ s, ProcArg.strArg "/usr/bin/mrregister -type rigid  -rigid x i t" = .strArg s :=
  (C6_single_string_invocations envStd procZero "i" "t" "x").1
    (.strArg "/usr/bin/mrregister -type rigid  -rigid x i t") (by decide)

/-- Claim C7, as stated, is false: importing `dwi_nodes` constructs Node
and Workflow objects as a side effect. -/
theorem C7_counterexample : constructedObjects dwi_nodes_module ≠ [] := by
  decide

/-- Claim C7 amended: the pipelines of `dwi_pipelines.py` are obtained
only through explicit `create_*` builder functions and importing that
module constructs no Node or Workflow objects, but `dwi_nodes.py`
constructs four module-level Node/Workflow singletons
(`rigid_transform_estimation`, `apply_linear_transform`,
`rigid_registration`, `sift_filtering`) as import side effects, so
process-wide module-level pipeline state does exist. -/
theorem C7_module_level_construction :
    constructedObjects dwi_pipelines_module = []
    ∧ constructedObjects dwi_nodes_module
        = ["rigid_transform_estimation", "apply_linear_transform",
            "rigid_registration", "sift_filtering"] :=
  ⟨rfl, rfl⟩

/-- Claim C8, as stated, is false at the concrete input the claim names:
the plain attribute assignment `diffusionbiascorrect.use_ants = True`
(line 43) is accepted, storing a plain attribute and leaving the node's
interface inputs untouched — it is not rejected. -/
theorem C8_counterexample :
    pyNodeSetattr diffusionbiascorrect "use_ants" (.pbool true)
      = .ok { name := "diffusionbiascorrect", inputsAttrs := []
            , plainAttrs := [("use_ants", .pbool true)] } :=
  rfl

/-- Claim C8 amended: assigning any option name as a plain attribute on a
constructed node object is silently accepted as arbitrary attribute
assignment (CPython `setattr` always succeeds on a `pe.Node`), leaving
the node's validated interface inputs unchanged, rather than being
rejected at construction time. -/
theorem C8_setattr_silently_accepted :
    ∀ (n : PyNodeObj) (a : String) (v : PyVal),
      ∃ n2, pyNodeSetattr n a v = .ok n2
        ∧ n2.inputsAttrs = n.inputsAttrs
        ∧ n2.plainAttrs = n.plainAttrs ++ [(a, v)] := by
  intro n a v
  exact ⟨{ n with plainAttrs := n.plainAttrs ++ [(a, v)] }, rfl, rfl, rfl⟩

/-- Claim C9: `connect` on a workflow whose source or destination node is
not previously registered fails with `UnknownPort` and records nothing. -/
theorem C9_connect_unregistered_node :
    (∀ (w : WorkflowBuilder) (s sp d dp : String),
        findNode w s = none →
        connect w s sp d dp = .error (.unknownPort s sp))
    ∧ (∀ (w : WorkflowBuilder) (s sp d dp : String) (sn : PortDecl),
        findNode w s = some sn →
        findNode w d = none →
        connect w s sp d dp = .error (.unknownPort d dp)) := by
  constructor
  · intro w s sp d dp h
    simp only [connect, h]
  · intro w s sp d dp sn hs hd
    simp only [connect, hs, hd]

/-- Witness for C9: connecting on a builder with no registered nodes. -/
theorem C9_connect_unregistered_node_witness :
    connect emptyBuilder "a" "x" "b" "y" = .error (.unknownPort "a" "x") :=
  C9_connect_unregistered_node.1 emptyBuilder "a" "x" "b" "y" rfl

/-- Claim C10: every invocation built by `mrtransform_linear` (the run
implementation of the `apply_linear_transform` node) contains the
`-inverse` option — the command string always embeds `" -inverse "`
between the transform argument and the input volume — and the
`rigid_registration` workflow wires the estimated transform of
`rigid_transform_estimation` into that node's `transform` input. -/
theorem C10_inverse_always_passed :
    (∀ (env : Env) (proc : ProcOracle) (input output transform p : String),
        env "mrtransform" = some p →
        ∃ s t, (mrtransform_linear env proc input output transform).invocations
          = [.strArg (s ++ " -inverse " ++ t)])
    ∧ ⟨"rigid_transform_estimation", "transform", "apply_linear_transform", "transform"⟩
        ∈ rigid_registration_connections := by
  refine ⟨?_, by decide⟩
  intro env proc input output transform p h
  refine ⟨p ++ " -linear " ++ transform, input ++ " " ++ output, ?_⟩
  simp only [mrtransform_linear, h]
  simp [String.append_assoc]

/-- Witness for C10: the concrete mrtransform invocation contains
`-inverse`. -/
theorem C10_inverse_always_passed_witness :
    ∃ s t, (mrtransform_linear envStd procZero "in.mif" "out.mif" "t.txt").invocations
      = [.strArg (s ++ " -inverse " ++ t)] :=
  C10_inverse_always_passed.1 envStd procZero "in.mif" "out.mif" "t.txt"
    "/usr/bin/mrtransform" rfl

end MriProc
